import Mathlib

/-!
Verification of the mssql_arm SQL Server database adapter.

This file gives a shallow embedding, in Lean 4, of the parts of
`src/mssql_arm/base.py` that the verified properties talk about:
the ODBC connection-string escaping (`encode_value`,
`encode_connection_string`), the row-decoding heuristic
(`row_decode_all`, `row_decode_int`), the connect retry loop
(`get_new_connection`), autocommit and savepoint emulation
(`_set_autocommit`, `_savepoint`, `_savepoint_rollback`,
`_savepoint_commit`), server-version detection (`sql_server_version`,
the `_cursor` legacy type override), the collation rewrite of the
operator tables in `DatabaseWrapper.__init__`, and the
`driver_needs_utf8` option handling.

Python strings are modelled as `List Char`, bytes as `List Nat`
(each element a byte value), dictionaries as association lists.
Where the Python code reads connection state through a cursor
(`SELECT @@TRANCOUNT`), the embedding takes that state as an
explicit argument.
-/

namespace MssqlArm

/-- The left curly brace character. -/
def lbrace : Char := Char.ofNat 123

/-- The right curly brace character. -/
def rbrace : Char := Char.ofNat 125

/-- Python `v.strip(' ')`: remove leading and trailing space characters. -/
def pyStripSpace (v : List Char) : List Char :=
  ((v.dropWhile (fun c => c = ' ')).reverse.dropWhile (fun c => c = ' ')).reverse

/-- Python `v.strip(' ').startswith('{')` from base.py line 65. -/
def stripStartsWithLbrace (v : List Char) : Bool :=
  match pyStripSpace v with
  | c :: _ => c = lbrace
  | [] => false

/-- Python `v.replace('}', '}}')`: double every right curly brace. -/
def doubleRbrace : List Char → List Char
  | [] => []
  | c :: cs => if c = rbrace then rbrace :: rbrace :: doubleRbrace cs else c :: doubleRbrace cs

/-- `encode_value` (base.py lines 61-67): if the value contains a semicolon,
or starts with a (possibly space-padded) left curly brace, enclose it in
curly braces and double every right curly brace inside. -/
def encode_value (v : List Char) : List Char :=
  if ';' ∈ v ∨ stripStartsWithLbrace v then
    lbrace :: (doubleRbrace v ++ [rbrace])
  else v

/-- `encode_connection_string` (base.py lines 47-58): join the `key=value`
pairs, with each value escaped by `encode_value`, separated by semicolons. -/
def encode_connection_string (fields : List (List Char × List Char)) : List Char :=
  List.intercalate [';'] (fields.map (fun kv => kv.1 ++ '=' :: encode_value kv.2))

/-- Modelled from the spec: the decoder for a brace-wrapped connection-string
value (the source never decodes; the spec describes decoding as stripping the
outer braces and un-doubling right braces).  This is the un-doubling step:
each pair of consecutive right braces becomes a single right brace, scanning
left to right. -/
def undoubleRbrace : List Char → List Char
  | [] => []
  | [c] => [c]
  | c :: d :: cs =>
    if c = rbrace ∧ d = rbrace then rbrace :: undoubleRbrace cs
    else c :: undoubleRbrace (d :: cs)

/-- Strip the first and last character of a wrapped value. -/
def stripOuterBraces (l : List Char) : List Char := (l.drop 1).dropLast

/-- Modelled from the spec: full decoder for a brace-wrapped value: strip the
outer braces, then un-double right braces. -/
def decodeWrapped (l : List Char) : List Char := undoubleRbrace (stripOuterBraces l)

theorem undouble_double : ∀ v : List Char, undoubleRbrace (doubleRbrace v) = v := by
  intro v
  induction v with
  | nil => rfl
  | cons a v ih =>
    by_cases ha : a = rbrace
    · subst ha
      simp [doubleRbrace, undoubleRbrace, ih]
    · cases hv : doubleRbrace v with
      | nil =>
        have hv' : v = [] := by
          cases v with
          | nil => rfl
          | cons b w =>
            rw [doubleRbrace] at hv
            split at hv <;> simp_all
        subst hv'
        simp [doubleRbrace, undoubleRbrace, ha]
      | cons d cs =>
        simp only [doubleRbrace, if_neg ha, hv, undoubleRbrace]
        rw [if_neg (by simp [ha]), ← hv, ih]

theorem count_doubleRbrace : ∀ v : List Char,
    (doubleRbrace v).count rbrace = 2 * v.count rbrace := by
  intro v
  induction v with
  | nil => rfl
  | cons a v ih =>
    by_cases ha : a = rbrace
    · subst ha
      simp [doubleRbrace, List.count_cons, ih]
      ring
    · simp [doubleRbrace, ha, List.count_cons, ih]

theorem encode_value_wrapped (v : List Char) (h : ';' ∈ v) :
    encode_value v = lbrace :: (doubleRbrace v ++ [rbrace]) := by
  rw [encode_value, if_pos (Or.inl h)]

/-- The C7 claim, checked literally on the input `" {"` (a space then a left
brace): the input contains no semicolon and does not start with a left brace,
yet `encode_value` does not return it unchanged, because the source strips
spaces before testing for the leading brace. -/
theorem C7_counterexample :
    ';' ∉ ([' ', lbrace] : List Char) ∧
    ([' ', lbrace] : List Char).head? ≠ some lbrace ∧
    encode_value [' ', lbrace] ≠ [' ', lbrace] := by
  refine ⟨by decide, by decide, ?_⟩
  decide

/-- C7 (amended): for every string `v` that does not contain a semicolon and
whose space-stripped form does not start with a left curly brace,
`encode_value v = v`. -/
theorem C7_escape_amended (v : List Char) (h1 : ';' ∉ v)
    (h2 : stripStartsWithLbrace v = false) :
    encode_value v = v := by
  rw [encode_value, if_neg]
  rw [not_or]
  exact ⟨h1, by simp [h2]⟩

theorem C7_witness : encode_value ['a', 'b'] = ['a', 'b'] :=
  C7_escape_amended ['a', 'b'] (by decide) (by decide)

/-- C8: for every string `v` containing a semicolon, `encode_value v` starts
with a left brace and ends with a right brace, every right brace of `v`
appears doubled in the wrapped interior (the interior's right-brace count is
twice that of `v`), decoding the wrapped form (strip outer braces, un-double
right braces) recovers exactly `v`, and `encode_value` is injective on such
values. -/
theorem C8_escape_wrap (v : List Char) (h : ';' ∈ v) :
    (encode_value v).head? = some lbrace ∧
    (encode_value v).getLast? = some rbrace ∧
    (stripOuterBraces (encode_value v)).count rbrace = 2 * v.count rbrace ∧
    decodeWrapped (encode_value v) = v ∧
    ∀ w, ';' ∈ w → encode_value w = encode_value v → w = v := by
  have hstrip : ∀ u : List Char, ';' ∈ u →
      stripOuterBraces (encode_value u) = doubleRbrace u := by
    intro u hu
    rw [encode_value_wrapped u hu, stripOuterBraces]
    simp [List.dropLast_concat]
  have hdec : ∀ u : List Char, ';' ∈ u → decodeWrapped (encode_value u) = u := by
    intro u hu
    rw [decodeWrapped, hstrip u hu, undouble_double]
  refine ⟨?_, ?_, ?_, hdec v h, ?_⟩
  · rw [encode_value_wrapped v h]; rfl
  · rw [encode_value_wrapped v h, ← List.cons_append, List.getLast?_concat]
  · rw [hstrip v h, count_doubleRbrace]
  · intro w hw hew
    calc w = decodeWrapped (encode_value w) := (hdec w hw).symm
    _ = decodeWrapped (encode_value v) := by rw [hew]
    _ = v := hdec v h

theorem C8_witness : decodeWrapped (encode_value ['a', ';', rbrace]) = ['a', ';', rbrace] :=
  (C8_escape_wrap ['a', ';', rbrace] (by decide)).2.2.2.1

/-- Connection state visible to `_set_autocommit` (base.py lines 618-628):
the server transaction count, which the source reads through
`SELECT @@TRANCOUNT` in `_get_trancount` (lines 578-581), and the
driver-level autocommit flag. -/
structure ConnState where
  trancount : Nat
  autocommit : Bool
  deriving DecidableEq, Repr

/-- `_set_autocommit` (base.py lines 618-628): `allowed = not autocommit`;
if not allowed, `allowed = self._get_trancount() > 0` ("FreeTDS requires
TRANCOUNT that is greater than 0"); the driver flag is assigned only when
allowed.  The defensive `try/except AttributeError: pass` around the
attribute assignment is modelled as the plain assignment. -/
def set_autocommit (s : ConnState) (autocommit : Bool) : ConnState :=
  let allowed := !autocommit
  let allowed := if !allowed then decide (s.trancount > 0) else allowed
  if allowed then { s with autocommit := autocommit } else s

/-- The C1 claim fails on the code: with transaction count 0 a request to
turn autocommit on leaves the driver flag unchanged, and with transaction
count 1 the same request does set the flag — the opposite of the claimed
condition. -/
theorem C1_counterexample :
    set_autocommit ⟨0, false⟩ true = ⟨0, false⟩ ∧
    (set_autocommit ⟨1, false⟩ true).autocommit = true := by
  decide

/-- C1 (amended): turning autocommit off is always applied; a request to
turn autocommit on is applied exactly when the transaction count is greater
than zero, and with transaction count 0 the request leaves the state
unchanged and raises no error. -/
theorem C1_set_autocommit_amended (s : ConnState) :
    set_autocommit s false = { s with autocommit := false } ∧
    (0 < s.trancount → set_autocommit s true = { s with autocommit := true }) ∧
    (s.trancount = 0 → set_autocommit s true = s) := by
  refine ⟨rfl, ?_, ?_⟩
  · intro h
    simp [set_autocommit, h]
  · intro h
    simp [set_autocommit, h]

theorem C1_witness :
    set_autocommit ⟨1, false⟩ true = ⟨1, true⟩ ∧
    set_autocommit ⟨0, true⟩ true = ⟨0, true⟩ :=
  ⟨(C1_set_autocommit_amended ⟨1, false⟩).2.1 (by decide),
   (C1_set_autocommit_amended ⟨0, true⟩).2.2 rfl⟩

/-- A transaction-affecting statement issued by the savepoint-emulation
methods.  The `SELECT @@TRANCOUNT` introspection query is not listed: in
this embedding the transaction count it returns is an explicit argument. -/
inductive SavepointStmt where
  | startTransaction
  | savepointCreate (sid : String)
  | savepointRollback (sid : String)
  deriving DecidableEq, Repr

/-- `_savepoint` (base.py lines 594-600): start a transaction when the
transaction count is zero, then always issue the create-savepoint
statement. -/
def _savepoint (trancount : Nat) (sid : String) : List SavepointStmt :=
  (if trancount = 0 then [SavepointStmt.startTransaction] else []) ++
    [SavepointStmt.savepointCreate sid]

/-- `_savepoint_rollback` (base.py lines 610-616): issue the rollback
statement only when the transaction count is greater than zero. -/
def _savepoint_rollback (trancount : Nat) (sid : String) : List SavepointStmt :=
  if trancount > 0 then [SavepointStmt.savepointRollback sid] else []

/-- `_savepoint_commit` (base.py lines 602-608): a no-op (`pass`) — SQL
Server has no RELEASE SAVEPOINT. -/
def _savepoint_commit (_trancount : Nat) (_sid : String) : List SavepointStmt := []

/-- C5: `_savepoint` issues the start-transaction statement exactly when the
transaction count is zero and always issues the create-savepoint statement;
`_savepoint_rollback` issues the rollback-savepoint statement exactly when
the transaction count is positive and issues nothing otherwise;
`_savepoint_commit` (release) never issues any statement. -/
theorem C5_savepoints (trancount : Nat) (sid : String) :
    (SavepointStmt.startTransaction ∈ _savepoint trancount sid ↔ trancount = 0) ∧
    SavepointStmt.savepointCreate sid ∈ _savepoint trancount sid ∧
    (SavepointStmt.savepointRollback sid ∈ _savepoint_rollback trancount sid ↔
      0 < trancount) ∧
    (trancount = 0 → _savepoint_rollback trancount sid = []) ∧
    _savepoint_commit trancount sid = [] := by
  rcases Nat.eq_zero_or_pos trancount with h | h
  · subst h
    simp [_savepoint, _savepoint_rollback, _savepoint_commit]
  · simp [_savepoint, _savepoint_rollback, _savepoint_commit, h, h.ne']

theorem C5_witness : _savepoint_rollback 0 "s1" = [] :=
  (C5_savepoints 0 "s1").2.2.2.1 rfl

/-- A Python value stored in the OPTIONS mapping.  Only the shape matters
for the option-handling claims: strings, booleans (including false-like
values), and None. -/
inductive OptV where
  | str (s : String)
  | boolean (b : Bool)
  | noneV
  deriving DecidableEq, Repr

/-- The `driver_charset` initialisation in `DatabaseWrapper.__init__`
(base.py lines 219-222): `if 'driver_needs_utf8' in opts` — a pure key
presence test, the value is never read — the charset is `utf-8`; otherwise
it is `opts.get('driver_charset', None)`. -/
def init_driver_charset (opts : List (String × OptV)) : OptV :=
  if opts.any (fun p => p.1 = "driver_needs_utf8") then OptV.str "utf-8"
  else
    match opts.lookup "driver_charset" with
    | some v => v
    | none => OptV.noneV

theorem lookup_none_any_false (k : String) :
    ∀ opts : List (String × OptV), opts.lookup k = none →
      opts.any (fun p => p.1 = k) = false := by
  intro opts
  induction opts with
  | nil => intro _; rfl
  | cons p l ih =>
    intro h
    obtain ⟨k', v⟩ := p
    rw [List.lookup] at h
    by_cases hk : k = k'
    · subst hk
      simp at h
    · have hk' : (k == k') = false := by simp [hk]
      rw [hk'] at h
      simp only [List.any_cons, ih h, Bool.or_false]
      simp [Ne.symm hk]

/-- C10: when the key `driver_needs_utf8` is present in OPTIONS — with any
value, including false-like ones — the driver charset is `utf-8`; when it is
absent, the `driver_charset` option is consulted, defaulting to None. -/
theorem C10_driver_charset (opts : List (String × OptV)) :
    (∀ v : OptV, ("driver_needs_utf8", v) ∈ opts →
      init_driver_charset opts = OptV.str "utf-8") ∧
    (opts.lookup "driver_needs_utf8" = none →
      init_driver_charset opts =
        ((opts.lookup "driver_charset").getD OptV.noneV)) := by
  constructor
  · intro v hv
    rw [init_driver_charset, if_pos]
    exact List.any_eq_true.mpr ⟨("driver_needs_utf8", v), hv, by simp⟩
  · intro h
    rw [init_driver_charset, if_neg]
    · cases opts.lookup "driver_charset" <;> rfl
    · rw [lookup_none_any_false "driver_needs_utf8" opts h]
      simp

theorem C10_witness :
    init_driver_charset
      [("driver_needs_utf8", OptV.boolean false), ("driver_charset", OptV.str "latin1")] =
      OptV.str "utf-8" :=
  (C10_driver_charset _).1 (OptV.boolean false) (by simp)

/-- The class-level `operators` table (base.py lines 132-147). -/
def operators : List (String × String) :=
  [("exact", "= %s"),
   ("iexact", "= UPPER(%s)"),
   ("contains", "LIKE %s ESCAPE \x27\\\x27"),
   ("icontains", "LIKE UPPER(%s) ESCAPE \x27\\\x27"),
   ("gt", "> %s"),
   ("gte", ">= %s"),
   ("lt", "< %s"),
   ("lte", "<= %s"),
   ("startswith", "LIKE %s ESCAPE \x27\\\x27"),
   ("endswith", "LIKE %s ESCAPE \x27\\\x27"),
   ("istartswith", "LIKE UPPER(%s) ESCAPE \x27\\\x27"),
   ("iendswith", "LIKE UPPER(%s) ESCAPE \x27\\\x27")]

/-- The class-level `pattern_ops` table (base.py lines 158-165). -/
def pattern_ops : List (String × String) :=
  [("contains", "LIKE \x27%%\x27 + \x7b\x7d + \x27%%\x27"),
   ("icontains", "LIKE \x27%%\x27 + UPPER(\x7b\x7d) + \x27%%\x27"),
   ("startswith", "LIKE \x7b\x7d + \x27%%\x27"),
   ("istartswith", "LIKE UPPER(\x7b\x7d) + \x27%%\x27"),
   ("endswith", "LIKE \x27%%\x27 + \x7b\x7d"),
   ("iendswith", "LIKE \x27%%\x27 + UPPER(\x7b\x7d)")]

/-- Whether the first list is an initial segment of the second. -/
def leadsWith : List Char → List Char → Bool
  | [], _ => true
  | _ :: _, [] => false
  | p :: ps, c :: cs => p == c && leadsWith ps cs

/-- Python `s.startswith(pre)`, on the underlying character lists. -/
def pyStartsWith (pre s : String) : Bool := leadsWith pre.toList s.toList

/-- Python `s.endswith(suf)`, on the underlying character lists. -/
def pyEndsWith (suf s : String) : Bool := leadsWith suf.toList.reverse s.toList.reverse

/-- The two lookup-operator tables carried by a wrapper instance. -/
structure OpTables where
  operators : List (String × String)
  pattern_ops : List (String × String)
  deriving DecidableEq, Repr

/-- The collation rewrite in `DatabaseWrapper.__init__` (base.py lines
228-237): when a truthy `collation` option is configured, each entry of
`operators` whose SQL starts with `LIKE ` is replaced (in place, keeping
order) by `'%s COLLATE %s' % (sql, collation)`; all other entries, and the
whole `pattern_ops` table, are left as on the class. -/
def init_operator_tables (collation : Option String) : OpTables :=
  match collation with
  | some c =>
    if c ≠ "" then
      { operators := MssqlArm.operators.map (fun p =>
          if pyStartsWith "LIKE " p.2 then (p.1, p.2 ++ " COLLATE " ++ c) else p),
        pattern_ops := MssqlArm.pattern_ops }
    else { operators := MssqlArm.operators, pattern_ops := MssqlArm.pattern_ops }
  | none => { operators := MssqlArm.operators, pattern_ops := MssqlArm.pattern_ops }

/-- The C9 claim fails on the code for the `pattern_ops` table: with a
collation configured, the `contains` entry of `pattern_ops` is LIKE-based yet
keeps its class-level SQL fragment, with no ` COLLATE <name>` appended. -/
theorem C9_counterexample :
    (init_operator_tables (some "Latin1_General_CS_AS")).pattern_ops.lookup "contains" =
      some "LIKE \x27%%\x27 + \x7b\x7d + \x27%%\x27" ∧
    pyStartsWith "LIKE " "LIKE \x27%%\x27 + \x7b\x7d + \x27%%\x27" = true ∧
    pyEndsWith " COLLATE Latin1_General_CS_AS"
      "LIKE \x27%%\x27 + \x7b\x7d + \x27%%\x27" = false := by
  refine ⟨rfl, by decide, by decide⟩

theorem lookup_cons_pair (k : String) (p : String × String) (l : List (String × String)) :
    List.lookup k (p :: l) = if k == p.1 then some p.2 else List.lookup k l := by
  obtain ⟨a, b⟩ := p
  simp only [List.lookup]
  cases h : (k == a) <;> simp

theorem lookup_map_preserving (f : String × String → String × String)
    (hf : ∀ p, (f p).1 = p.1) :
    ∀ (l : List (String × String)) (k : String),
      (l.map f).lookup k = ((l.lookup k).map (fun v => (f (k, v)).2)) := by
  intro l k
  induction l with
  | nil => rfl
  | cons p l ih =>
    rw [List.map_cons, lookup_cons_pair, lookup_cons_pair, hf p]
    cases hk : (k == p.1)
    · simpa using ih
    · have hk' : k = p.1 := eq_of_beq hk
      subst hk'
      simp

/-- C9 (amended): when a non-empty collation is configured, after wrapper
construction every entry of the `operators` table whose SQL fragment starts
with `LIKE ` has ` COLLATE <name>` appended and every other entry is
unchanged, while the `pattern_ops` table is left entirely unchanged (its
LIKE-based pattern operators get no COLLATE clause). -/
theorem C9_collation_amended (c : String) (hc : c ≠ "") :
    (∀ op sql : String, MssqlArm.operators.lookup op = some sql →
      (init_operator_tables (some c)).operators.lookup op =
        some (if pyStartsWith "LIKE " sql then sql ++ " COLLATE " ++ c else sql)) ∧
    (init_operator_tables (some c)).pattern_ops = MssqlArm.pattern_ops := by
  have htab : init_operator_tables (some c) =
      { operators := MssqlArm.operators.map (fun p =>
          if pyStartsWith "LIKE " p.2 then (p.1, p.2 ++ " COLLATE " ++ c) else p),
        pattern_ops := MssqlArm.pattern_ops } := by
    simp only [init_operator_tables]
    rw [if_pos hc]
  constructor
  · intro op sql h
    rw [htab]
    rw [lookup_map_preserving _
      (fun p => by by_cases hp : pyStartsWith "LIKE " p.2 <;> simp [hp]), h]
    by_cases hs : pyStartsWith "LIKE " sql <;> simp [hs]
  · rw [htab]

theorem C9_witness :
    (init_operator_tables (some "X")).operators.lookup "contains" =
      some ("LIKE %s ESCAPE \x27\\\x27" ++ " COLLATE " ++ "X") := by
  have h := (C9_collation_amended "X" (by decide)).1 "contains"
    "LIKE %s ESCAPE \x27\\\x27" rfl
  rw [h, if_pos (by decide)]

/-- The class-level `data_types` table (base.py lines 77-118). -/
def data_types : List (String × String) :=
  [("AutoDecimalField", "decimal(%(max_digits)s, %(decimal_places)s)"),
   ("AutoField", "int"),
   ("BigAutoField", "bigint"),
   ("BigIntegerField", "bigint"),
   ("BinaryField", "varbinary(%(max_length)s)"),
   ("BooleanField", "bit"),
   ("CharField", "nvarchar(%(max_length)s)"),
   ("CommaSeparatedIntegerField", "nvarchar(%(max_length)s)"),
   ("DateField", "date"),
   ("DateTimeField", "datetime2"),
   ("DateTimeOffsetField", "datetimeoffset"),
   ("DecimalField", "numeric(%(max_digits)s, %(decimal_places)s)"),
   ("DurationField", "bigint"),
   ("FileField", "nvarchar(%(max_length)s)"),
   ("FilePathField", "nvarchar(%(max_length)s)"),
   ("FloatField", "double precision"),
   ("IntegerField", "int"),
   ("IPAddressField", "nvarchar(15)"),
   ("LegacyDateField", "datetime"),
   ("LegacyDateTimeField", "datetime"),
   ("LegacyTimeField", "time"),
   ("GenericIPAddressField", "nvarchar(39)"),
   ("JSONField", "nvarchar(max)"),
   ("NCharField", "nchar(%(max_length)s)"),
   ("NewDateField", "date"),
   ("NewDateTimeField", "datetime2"),
   ("NewTimeField", "time"),
   ("NullBooleanField", "bit"),
   ("OneToOneField", "int"),
   ("PositiveIntegerField", "int"),
   ("PositiveSmallIntegerField", "smallint"),
   ("PositiveBigIntegerField", "bigint"),
   ("SlugField", "nvarchar(%(max_length)s)"),
   ("SmallAutoField", "smallint"),
   ("SmallIntegerField", "smallint"),
   ("TextField", "nvarchar(max)"),
   ("TimeField", "time"),
   ("URLField", "nvarchar(%(max_length)s)"),
   ("UUIDField", "char(32)")]

/-- Python dict item assignment `d[k] = v` for a key already present:
replace the value stored at the key, keeping order. -/
def setKey (l : List (String × String)) (k v : String) : List (String × String) :=
  l.map (fun p => if p.1 = k then (k, v) else p)

/-- The `_sql_server_versions` table (base.py lines 180-188): known major
versions and their released-year labels. -/
def _sql_server_versions : List (Nat × Nat) :=
  [(9, 2005), (10, 2008), (11, 2012), (12, 2014), (13, 2016), (14, 2017), (15, 2019)]

/-- `sql_server_version` (base.py lines 531-551), as a function of the major
version number parsed from the server ProductVersion string: look the major
version up in `_sql_server_versions`; an unknown major version raises
`NotSupportedError`, modelled as `Except.error` with the source's message. -/
def sql_server_version (major : Nat) : Except String Nat :=
  match _sql_server_versions.lookup major with
  | some year => Except.ok year
  | none => Except.error ("SQL Server v" ++ toString major ++ " is not supported.")

/-- The `data_types` rewrite in `_cursor` (base.py lines 242-255): on a new
connection (`self.connection is None` before the call), when the mapped
server version is at or below 2005 the `DateField`, `DateTimeField` and
`TimeField` entries are overwritten with `datetime`; a `NotSupportedError`
from `sql_server_version` propagates. -/
def cursor_data_types (new_conn : Bool) (major : Nat)
    (dt : List (String × String)) : Except String (List (String × String)) :=
  if new_conn then
    match sql_server_version major with
    | Except.ok year =>
      Except.ok (if year ≤ 2005 then
        setKey (setKey (setKey dt "DateField" "datetime")
          "DateTimeField" "datetime") "TimeField" "datetime"
      else dt)
    | Except.error e => Except.error e
  else Except.ok dt

/-- C6: major version 9 maps to the released-year label 2005; on a first
real connection with a mapped version at or below 2005 the `DateField`,
`DateTimeField` and `TimeField` mappings are all overridden to `datetime`;
major version 16 is absent from the table and raises `NotSupportedError`. -/
theorem C6_version_legacy :
    sql_server_version 9 = Except.ok 2005 ∧
    (∀ major year : Nat, sql_server_version major = Except.ok year → year ≤ 2005 →
      ∃ dt, cursor_data_types true major data_types = Except.ok dt ∧
        dt.lookup "DateField" = some "datetime" ∧
        dt.lookup "DateTimeField" = some "datetime" ∧
        dt.lookup "TimeField" = some "datetime") ∧
    sql_server_version 16 = Except.error "SQL Server v16 is not supported." := by
  refine ⟨rfl, ?_, rfl⟩
  intro major year h hy
  have hc : cursor_data_types true major data_types =
      Except.ok (setKey (setKey (setKey data_types "DateField" "datetime")
        "DateTimeField" "datetime") "TimeField" "datetime") := by
    simp only [cursor_data_types, h, if_true]
    rw [if_pos hy]
  exact ⟨_, hc, by decide, by decide, by decide⟩

theorem C6_witness :
    ∃ dt, cursor_data_types true 9 data_types = Except.ok dt ∧
      dt.lookup "DateField" = some "datetime" ∧
      dt.lookup "DateTimeField" = some "datetime" ∧
      dt.lookup "TimeField" = some "datetime" :=
  C6_version_legacy.2.1 9 2005 rfl (by decide)

/-- A driver connection object as `get_new_connection` handles it.  The
only attribute the claims observe is the query-level `timeout` attribute
which the adapter may assign (`conn.timeout = query_timeout`,
base.py line 406). -/
structure DriverConn where
  timeout_attr : Option Nat
  deriving DecidableEq, Repr

/-- The result of `Database.connect(**conn_params)`: a fresh driver
connection on which the adapter has not assigned the query-timeout
attribute. -/
def Database_connect : DriverConn := { timeout_attr := none }

/-- An observable event of the connect retry loop: a connection attempt
(numbered from 0) or a `time.sleep(backoff_time)`. -/
inductive RetryEv where
  | attempt (i : Nat)
  | sleep (secs : Nat)
  deriving DecidableEq, Repr

/-- A Python exception as the retry loop and its `except Exception` handler
can observe it: a driver error carrying the extractable error-number string,
a `KeyError` carrying the missing key, or the bare exceptions the handler
itself can raise. -/
inductive PyExc where
  | driverError (err_no : String)
  | keyError (key : String)
  | attributeError
  | indexError
  deriving DecidableEq, Repr

/-- How the retry loop of `get_new_connection` can end: a successful
connection, an exception propagating out (re-raised original or an uncaught
crash from the handler itself), or out of fuel. -/
inductive AcquireResult where
  | connected (c : DriverConn)
  | raised (e : PyExc)
  | outOfFuel
  deriving DecidableEq, Repr

/-- `_transient_error_numbers` (base.py lines 191-201). -/
def _transient_error_numbers : List String :=
  ["4060", "10928", "10929", "40197", "40501", "40613", "49918", "49919", "49920"]

/-- Whether the first character list occurs contiguously inside the second
(Python `in` on strings). -/
def holdsSub (pat : List Char) : List Char → Bool
  | [] => pat.isEmpty
  | c :: cs => leadsWith pat (c :: cs) || holdsSub pat cs

/-- Python `error_number in err_no` tried over `_transient_error_numbers`
(base.py lines 389-395).  The source loop breaks at the first code contained
in the error-number string; since its action depends only on the retry
count, not on which code matched, the `for`/`break` collapses to this
any-match test. -/
def transientMatch (err_no : String) : Bool :=
  _transient_error_numbers.any (fun code => holdsSub code.toList err_no.toList)

/-- Python `str.upper()` on the ASCII letters (the only characters occurring
in connection-parameter keys). -/
def pyUpper (s : String) : String :=
  String.mk (s.toList.map (fun c =>
    if 'a' ≤ c ∧ c ≤ 'z' then Char.ofNat (c.toNat - 32) else c))

/-- Python `str.lower()` on the ASCII letters. -/
def pyLower (s : String) : String :=
  String.mk (s.toList.map (fun c =>
    if 'A' ≤ c ∧ c ≤ 'Z' then Char.ofNat (c.toNat + 32) else c))

/-- Python dict key assignment for the keys-only dict model: writing an
existing key keeps its position, a new key is appended (insertion order). -/
def addKey (keys : List String) (k : String) : List String :=
  if k ∈ keys then keys else keys ++ [k]

/-- The `allowed_params` list (base.py lines 382-384). -/
def allowed_params : List String :=
  ["HOST", "PORT", "DATABASE", "USER", "PASSWORD", "TIMEOUT", "AUTOCOMMIT"]

/-- The keys of a standard Django `settings_dict` copy, as
`get_connection_params` (base.py lines 257-266) passes it to
`get_new_connection` on the first iteration. -/
def django_settings_keys : List String :=
  ["ENGINE", "NAME", "HOST", "PORT", "USER", "PASSWORD", "OPTIONS",
   "AUTOCOMMIT", "ATOMIC_REQUESTS", "CONN_MAX_AGE", "TIME_ZONE"]

/-- The `conn_params` re-munging at the top of every retry-loop iteration
(base.py lines 378-385), on the keys-only dict model:
`conn_params['TIMEOUT'] = timeout` adds the key; then
`conn_params['PORT'] = int(conn_params['PORT'])` reads the upper-case key
`'PORT'` and raises `KeyError('PORT')` when it is absent; then
`conn_params['DATABASE'] = conn_params['NAME']` reads `'NAME'` (raising
`KeyError('NAME')` when absent) and adds `'DATABASE'`; finally `conn_params`
is re-bound to the lower-cased dict filtered to `allowed_params`.  An error
carries the dict state at the moment of the raise (the `TIMEOUT` write has
already happened), since the re-bound variable persists across loop
iterations. -/
def munge_conn_params (keys : List String) :
    Except (PyExc × List String) (List String) :=
  let keys1 := addKey keys "TIMEOUT"
  if "PORT" ∈ keys1 then
    if "NAME" ∈ keys1 then
      let keys2 := addKey keys1 "DATABASE"
      Except.ok ((keys2.filter (fun k => pyUpper k ∈ allowed_params)).map pyLower)
    else Except.error (PyExc.keyError "NAME", keys1)
  else Except.error (PyExc.keyError "PORT", keys1)

/-- The error-number extraction at base.py lines 390-393:
`err_no = conn_error.args[1]`, falling back on `IndexError` to
`conn_error.args[0][1].decode()`.  For a driver error the adapter obtains
the error-number string.  For a `KeyError` raised by the parameter munging,
`args` is the single missing key, so `args[1]` raises `IndexError`, and then
`args[0][1]` is the key's second character — a `str`, whose `.decode()`
raises an `AttributeError` that nothing catches (an `IndexError` instead
when the key has fewer than two characters, or when `args` is empty). -/
def extract_err_no : PyExc → Except PyExc String
  | PyExc.driverError err_no => Except.ok err_no
  | PyExc.keyError k =>
    if 2 ≤ k.length then Except.error PyExc.attributeError
    else Except.error PyExc.indexError
  | _ => Except.error PyExc.indexError

/-- The `except Exception` handler (base.py lines 388-404) on the caught
exception and loop state.  If the error-number extraction itself raises,
that exception propagates uncaught (`Except.error`).  Otherwise: when a
transient code occurs in the error number and `retry_count < retries`, the
loop sleeps and retries with `retry_count + 1` (`Except.ok` with the sleep
flag and new state); when a transient code occurs but retries are exhausted,
`need_to_retry` becomes false; when no transient code occurs, `need_to_retry`
keeps its previous value (the source never resets it on that path); the
caught exception is re-raised exactly when `need_to_retry` ends up false. -/
def handle_conn_error (retries : Nat) (e : PyExc) (retry_count : Nat)
    (need_to_retry : Bool) : Except PyExc (Bool × Nat × Bool) :=
  match extract_err_no e with
  | Except.error e2 => Except.error e2
  | Except.ok err_no =>
    let matched := transientMatch err_no
    let sleeps := matched && decide (retry_count < retries)
    let ntr := if matched then sleeps else need_to_retry
    let rc := if sleeps then retry_count + 1 else retry_count
    if ntr then Except.ok (sleeps, rc, ntr)
    else Except.error e

/-- The `while conn is None` retry loop of `get_new_connection` (base.py
lines 372-407), step-indexed by `fuel` (the source loop is unbounded; the
claims need finitely many steps).  Each iteration first re-munges
`conn_params` (`munge_conn_params`); only if that succeeds is
`Database.connect` reached — `outcomes i` is what the i-th connect call
does: `none` means it returns a fresh connection (returned directly from
inside the loop, so the trailing `conn.timeout = query_timeout` of line 406
is unreachable), `some err_no` means it raises a driver error with that
extracted error-number string.  Any caught exception goes through
`handle_conn_error`; a continuing iteration carries the re-bound (or
partially mutated) `conn_params` keys into the next iteration.  The returned
list records the attempt/sleep events in order; a munging failure produces
no attempt event because `Database.connect` is never called. -/
def acquire_loop (retries backoff : Nat) (outcomes : Nat → Option String) :
    Nat → List String → Nat → Nat → Bool → List RetryEv × AcquireResult
  | 0, _, _, _, _ => ([], AcquireResult.outOfFuel)
  | fuel + 1, keys, i, retry_count, need_to_retry =>
    match munge_conn_params keys with
    | Except.error (e, keys1) =>
      match handle_conn_error retries e retry_count need_to_retry with
      | Except.error e2 => ([], AcquireResult.raised e2)
      | Except.ok (sleeps, rc, ntr) =>
        let rest := acquire_loop retries backoff outcomes fuel keys1 i rc ntr
        ((if sleeps then [RetryEv.sleep backoff] else []) ++ rest.1, rest.2)
    | Except.ok keys2 =>
      match outcomes i with
      | none => ([RetryEv.attempt i], AcquireResult.connected Database_connect)
      | some err_no =>
        match handle_conn_error retries (PyExc.driverError err_no)
            retry_count need_to_retry with
        | Except.error e2 => ([RetryEv.attempt i], AcquireResult.raised e2)
        | Except.ok (sleeps, rc, ntr) =>
          let rest := acquire_loop retries backoff outcomes fuel keys2 (i + 1) rc ntr
          (RetryEv.attempt i ::
            ((if sleeps then [RetryEv.sleep backoff] else []) ++ rest.1), rest.2)

/-- `get_new_connection` (base.py lines 268-407), restricted to the connect
retry loop: `keys` are the `conn_params` dict keys on entry; initial state
`conn = None`, `retry_count = 0`, `need_to_retry = False` (lines
372-374). -/
def get_new_connection (keys : List String) (retries backoff : Nat)
    (outcomes : Nat → Option String) (fuel : Nat) : List RetryEv × AcquireResult :=
  acquire_loop retries backoff outcomes fuel keys 0 0 false

/-- C2 fails on the code: the retry machinery (retry counter, fixed backoff,
transient-code table) clearly intends the claimed behaviour, but the loop
body re-binds `conn_params` to a lower-cased filtered dict (base.py line
385), so on every iteration after the first, `conn_params['PORT']` (line
379) raises `KeyError('PORT')` and the handler's fallback
`conn_error.args[0][1].decode()` raises an uncaught `AttributeError`.
Starting from standard Django settings keys with retries = 2: when every
connect attempt raises a transient-coded error, the program performs exactly
ONE connection attempt and one backoff sleep and then raises
`AttributeError` — not three attempts and not the original error; the
non-transient half of the claim does hold: the original error is re-raised
immediately after the first attempt with no sleep. -/
theorem C2_retry_unreachable (backoff : Nat) (err : String)
    (outcomes : Nat → Option String) :
    (transientMatch err = true → (∀ i, outcomes i = some err) →
      ∀ fuel, 2 ≤ fuel →
        get_new_connection django_settings_keys 2 backoff outcomes fuel =
          ([RetryEv.attempt 0, RetryEv.sleep backoff],
            AcquireResult.raised PyExc.attributeError)) ∧
    (transientMatch err = false → outcomes 0 = some err →
      ∀ fuel, 1 ≤ fuel →
        get_new_connection django_settings_keys 2 backoff outcomes fuel =
          ([RetryEv.attempt 0], AcquireResult.raised (PyExc.driverError err))) := by
  have hmu0 : munge_conn_params django_settings_keys =
      Except.ok ["host", "port", "user", "password", "autocommit",
        "timeout", "database"] := rfl
  constructor
  · intro hm ho fuel hf
    obtain ⟨k, rfl⟩ : ∃ k, fuel = k + 2 := ⟨fuel - 2, by omega⟩
    have hmu1 : munge_conn_params
        ["host", "port", "user", "password", "autocommit", "timeout", "database"] =
        Except.error (PyExc.keyError "PORT",
          ["host", "port", "user", "password", "autocommit", "timeout",
           "database", "TIMEOUT"]) := rfl
    have hh0 : handle_conn_error 2 (PyExc.driverError err) 0 false =
        Except.ok (true, 1, true) := by
      simp [handle_conn_error, extract_err_no, hm]
    have hh1 : handle_conn_error 2 (PyExc.keyError "PORT") 1 true =
        Except.error PyExc.attributeError := rfl
    simp only [get_new_connection, acquire_loop, hmu0, hmu1, ho 0, hh0, hh1]
    simp
  · intro hm ho fuel hf
    obtain ⟨k, rfl⟩ : ∃ k, fuel = k + 1 := ⟨fuel - 1, by omega⟩
    have hh2 : handle_conn_error 2 (PyExc.driverError err) 0 false =
        Except.error (PyExc.driverError err) := by
      simp [handle_conn_error, extract_err_no, hm]
    simp only [get_new_connection, acquire_loop, hmu0, ho, hh2]

theorem C2_witness :
    get_new_connection django_settings_keys 2 5
        (fun _ => some "error 40613 occurred") 10 =
      ([RetryEv.attempt 0, RetryEv.sleep 5],
        AcquireResult.raised PyExc.attributeError) ∧
    get_new_connection django_settings_keys 2 5
        (fun _ => some "error 99 occurred") 10 =
      ([RetryEv.attempt 0],
        AcquireResult.raised (PyExc.driverError "error 99 occurred")) :=
  ⟨(C2_retry_unreachable 5 "error 40613 occurred" _).1 (by decide) (fun _ => rfl)
      10 (by omega),
   (C2_retry_unreachable 5 "error 99 occurred" _).2 (by decide) rfl 10 (by omega)⟩

theorem acquire_loop_connected (retries backoff : Nat)
    (outcomes : Nat → Option String) :
    ∀ (fuel : Nat) (keys : List String) (i rc : Nat) (ntr : Bool) (c : DriverConn),
      (acquire_loop retries backoff outcomes fuel keys i rc ntr).2 =
        AcquireResult.connected c →
      c = Database_connect := by
  intro fuel
  induction fuel with
  | zero =>
    intro keys i rc ntr c h
    simp [acquire_loop] at h
  | succ f ih =>
    intro keys i rc ntr c h
    rw [acquire_loop] at h
    split at h
    · split at h
      · simp at h
      · exact ih _ _ _ _ c h
    · split at h
      · simp at h
        exact h.symm
      · split at h
        · simp at h
        · exact ih _ _ _ _ c h

/-- C4 fails on the code: `return Database.connect(**conn_params)` (base.py
line 386) exits `get_new_connection` from inside the retry loop, so the
trailing `conn.timeout = query_timeout` assignment (line 406) is dead code
and every successfully acquired connection — first attempt or after
transient retries — is returned with its query-timeout attribute never
assigned. -/
theorem C4_timeout_never_set (keys : List String) (retries backoff fuel : Nat)
    (outcomes : Nat → Option String) (c : DriverConn)
    (h : (get_new_connection keys retries backoff outcomes fuel).2 =
      AcquireResult.connected c) :
    c.timeout_attr = none := by
  rw [acquire_loop_connected retries backoff outcomes fuel keys 0 0 false c h]
  rfl

theorem C4_witness :
    DriverConn.timeout_attr { timeout_attr := none } = none :=
  C4_timeout_never_set django_settings_keys 5 5 1 (fun _ => none)
    { timeout_attr := none } (by decide)

/-- Whether a byte is a UTF-8 continuation byte (0x80..0xBF). -/
def isCont (b : Nat) : Bool := 128 ≤ b && b < 192

/-- Strict UTF-8 decoding of a byte list, as Python `bytes.decode('utf-8')`:
rejects truncated sequences, stray continuation bytes, overlong encodings,
surrogate code points and code points above 0x10FFFF.  Returns `none` where
Python raises `UnicodeDecodeError`. -/
def utf8Decode : List Nat → Option (List Char)
  | [] => some []
  | b :: bs =>
    if b < 128 then (utf8Decode bs).map (fun s => Char.ofNat b :: s)
    else if b < 194 then none
    else if b < 224 then
      match bs with
      | b2 :: bs2 =>
        if isCont b2 then
          (utf8Decode bs2).map (fun s => Char.ofNat ((b - 192) * 64 + (b2 - 128)) :: s)
        else none
      | [] => none
    else if b < 240 then
      match bs with
      | b2 :: b3 :: bs3 =>
        if isCont b2 && isCont b3 then
          if (b - 224) * 4096 + (b2 - 128) * 64 + (b3 - 128) < 2048 then none
          else if 55296 ≤ (b - 224) * 4096 + (b2 - 128) * 64 + (b3 - 128) ∧
              (b - 224) * 4096 + (b2 - 128) * 64 + (b3 - 128) < 57344 then none
          else (utf8Decode bs3).map
            (fun s => Char.ofNat ((b - 224) * 4096 + (b2 - 128) * 64 + (b3 - 128)) :: s)
        else none
      | _ => none
    else if b < 245 then
      match bs with
      | b2 :: b3 :: b4 :: bs4 =>
        if isCont b2 && isCont b3 && isCont b4 then
          if (b - 240) * 262144 + (b2 - 128) * 4096 + (b3 - 128) * 64 + (b4 - 128) <
              65536 then none
          else if 1114111 <
              (b - 240) * 262144 + (b2 - 128) * 4096 + (b3 - 128) * 64 + (b4 - 128)
            then none
          else (utf8Decode bs4).map (fun s =>
            Char.ofNat
              ((b - 240) * 262144 + (b2 - 128) * 4096 + (b3 - 128) * 64 + (b4 - 128)) :: s)
        else none
      | _ => none
    else none

/-- A Python value in a fetched row, as `row_decode_all` distinguishes them:
a bytes object, a str, an int, or any other object (opaque, carrying only an
identity tag). -/
inductive PyVal where
  | bytes (b : List Nat)
  | str (s : List Char)
  | int (n : Nat)
  | other (tag : Nat)
  deriving DecidableEq, Repr

/-- Python `int.from_bytes(bytes, byteorder='little', signed=False)`.  The
source passes `sys.byteorder`; the platforms this adapter targets are
little-endian, so native order is modelled as little-endian. -/
def intFromBytesLE : List Nat → Nat
  | [] => 0
  | b :: bs => b + 256 * intFromBytesLE bs

/-- `row_decode_int` (base.py lines 458-465): for a bytes value return
`int.from_bytes(row, sys.byteorder, signed=False)`; any other value is
returned unchanged.  (`int.from_bytes` cannot raise `UnicodeDecodeError`,
so the source's `except UnicodeDecodeError: pass` clause is dead.) -/
def row_decode_int : PyVal → PyVal
  | PyVal.bytes b => PyVal.int (intFromBytesLE b)
  | v => v

/-- `row_decode_all` (base.py lines 435-447), parametric in the model
`printable` of Python `str.isprintable` (both the source and the claim use
it only through this test).  For each element: try `r.decode('utf-8')`; on
success, if the byte length is 1, 2, 4 or 8 and the decoded text is not
printable, fall through to `row_decode_int`, else keep the decoded string;
when `.decode` raises (`UnicodeDecodeError` on undecodable bytes,
`AttributeError` on non-bytes values), fall through to `row_decode_int`. -/
def row_decode_all (printable : List Char → Bool) (row : List PyVal) : List PyVal :=
  row.map (fun r =>
    match r with
    | PyVal.bytes b =>
      match utf8Decode b with
      | some s =>
        if (b.length = 1 ∨ b.length = 2 ∨ b.length = 4 ∨ b.length = 8) ∧ ¬ printable s
        then row_decode_int (PyVal.bytes b)
        else PyVal.str s
      | none => row_decode_int (PyVal.bytes b)
    | r => r)

/-- The amended decodeRow description, written out from the claim's words as
corrected: the function is total; a bytes element that decodes as UTF-8
becomes the decoded string, unless its length is exactly 1, 2, 4 or 8 and
the decoded text is not printable, in which case it becomes the
native-endian unsigned integer of the bytes; a bytes element whose UTF-8
decode fails also becomes that integer (not the original bytes); non-bytes
elements pass through unchanged. -/
def decodeRowSpec (printable : List Char → Bool) (row : List PyVal) : List PyVal :=
  row.map (fun r =>
    match r with
    | PyVal.bytes b =>
      match utf8Decode b with
      | some s =>
        if (b.length = 1 ∨ b.length = 2 ∨ b.length = 4 ∨ b.length = 8) ∧ ¬ printable s
        then PyVal.int (intFromBytesLE b)
        else PyVal.str s
      | none => PyVal.int (intFromBytesLE b)
    | PyVal.str s => PyVal.str s
    | PyVal.int n => PyVal.int n
    | PyVal.other tag => PyVal.other tag)

/-- Modelled from the spec: Python `str.isprintable` restricted to ASCII
text, which is all the concrete witnesses exercise — a character is
printable when it is neither a C0 control character nor DEL. -/
def asciiPrintable (s : List Char) : Bool :=
  s.all (fun c => 32 ≤ c.toNat && c.toNat < 127)

/-- The C3 claim fails on the code at the single undecodable byte 0xFF:
UTF-8 decoding fails, and `row_decode_all` returns the little-endian
unsigned integer 255 rather than the original bytes unchanged (the claimed
behaviour), whatever `printable` does. -/
theorem C3_counterexample :
    utf8Decode [255] = none ∧
    row_decode_all (fun _ => true) [PyVal.bytes [255]] = [PyVal.int 255] ∧
    row_decode_all (fun _ => true) [PyVal.bytes [255]] ≠ [PyVal.bytes [255]] := by
  refine ⟨rfl, rfl, ?_⟩
  decide

/-- C3 (amended): `row_decode_all` is total on every input row and equals
the per-element description `decodeRowSpec`: bytes that decode as UTF-8
become the decoded string unless the length is 1, 2, 4 or 8 and the text is
not printable, in which case — and also whenever UTF-8 decoding fails — the
element becomes the native-endian unsigned integer of the bytes; non-bytes
elements pass through unchanged. -/
theorem C3_row_decode_amended (printable : List Char → Bool) :
    (∀ row, row_decode_all printable row = decodeRowSpec printable row) ∧
    (∀ b, utf8Decode b = none →
      row_decode_all printable [PyVal.bytes b] = [PyVal.int (intFromBytesLE b)]) ∧
    (∀ s, row_decode_all printable [PyVal.str s] = [PyVal.str s]) ∧
    (∀ tag, row_decode_all printable [PyVal.other tag] = [PyVal.other tag]) := by
  refine ⟨?_, ?_, fun s => rfl, fun tag => rfl⟩
  · intro row
    unfold row_decode_all decodeRowSpec
    refine List.map_congr_left ?_
    intro r _
    cases r with
    | bytes b => cases utf8Decode b <;> rfl
    | str s => rfl
    | int n => rfl
    | other tag => rfl
  · intro b hb
    simp [row_decode_all, hb, row_decode_int]

theorem C3_witness :
    row_decode_all asciiPrintable [PyVal.bytes [255]] =
      [PyVal.int (intFromBytesLE [255])] :=
  (C3_row_decode_amended asciiPrintable).2.1 [255] rfl

end MssqlArm
